import Mathlib

/-
Verification of the resource interface declarations of crossplane-runtime
(src/pkg/resource/interfaces.go) and of the provider-config usage ledger
described in the design document.

The source file declares only Go interfaces (capability contracts and the
entity interfaces composed from them).  We embed those declarations as data:
a Go type expression, a method signature, and an interface with its list of
embedded interfaces and directly declared methods.  Entity interfaces in the
source declare no methods of their own; their method sets arise from the
embedded capability interfaces, which `methodSet` resolves exactly as Go does.
-/

namespace CrossplaneRuntime

/-- Names of the interfaces declared in src/pkg/resource/interfaces.go, plus
the three external interfaces it embeds (metav1.Object, runtime.Object,
client.ObjectList).  `objectIface`, `managedIface` and `composite` stand for
the Go identifiers `Object`, `Managed` and `Composite`. -/
inductive IfaceName where
  | conditioned
  | claimReferencer
  | managedResourceReferencer
  | localConnectionSecretWriterTo
  | connectionSecretWriterTo
  | connectionDetailsPublisherTo
  | manageable
  | orphanable
  | customReconciliation
  | providerConfigReferencer
  | requiredProviderConfigReferencer
  | requiredTypedResourceReferencer
  | finalizer
  | compositionSelector
  | compositionReferencer
  | compositionRevisionReferencer
  | compositionRevisionSelector
  | compositionUpdater
  | compositeResourceDeleter
  | composedResourcesReferencer
  | compositeResourceReferencer
  | environmentConfigReferencer
  | userCounter
  | connectionDetailsPublishedTimer
  | reconciliationObserver
  | objectIface
  | managedIface
  | managedList
  | providerConfig
  | providerConfigUsage
  | providerConfigUsageList
  | composite
  | composed
  | compositeClaim
  | metav1Object
  | runtimeObject
  | clientObjectList
deriving DecidableEq, Repr

/-- Names of the methods declared by the interfaces of
src/pkg/resource/interfaces.go (camel-cased Go identifiers). -/
inductive MethodName where
  | setConditions
  | getCondition
  | setClaimReference
  | getClaimReference
  | setResourceReference
  | getResourceReference
  | setWriteConnectionSecretToReference
  | getWriteConnectionSecretToReference
  | setPublishConnectionDetailsTo
  | getPublishConnectionDetailsTo
  | setManagementPolicies
  | getManagementPolicies
  | setDeletionPolicy
  | getDeletionPolicy
  | setReconciliationPolicy
  | getReconciliationPolicy
  | getProviderConfigReference
  | setProviderConfigReference
  | addFinalizer
  | removeFinalizer
  | setCompositionSelector
  | getCompositionSelector
  | setCompositionReference
  | getCompositionReference
  | setCompositionRevisionReference
  | getCompositionRevisionReference
  | setCompositionRevisionSelector
  | getCompositionRevisionSelector
  | setCompositionUpdatePolicy
  | getCompositionUpdatePolicy
  | setCompositeDeletePolicy
  | getCompositeDeletePolicy
  | setResourceReferences
  | getResourceReferences
  | setEnvironmentConfigReferences
  | getEnvironmentConfigReferences
  | setUsers
  | getUsers
  | setConnectionDetailsLastPublishedTime
  | getConnectionDetailsLastPublishedTime
  | setObservedGeneration
  | getObservedGeneration
  | getItems
deriving DecidableEq, Repr

/-- Go type expressions occurring in the method signatures of
src/pkg/resource/interfaces.go.  Base constructors name the imported types
(context.Context, error, xpv1.Condition, claim.Reference,
corev1.ObjectReference, xpv1.LocalSecretReference, xpv1.SecretReference,
xpv1.PublishConnectionDetailsTo, xpv1.ManagementPolicies, xpv1.DeletionPolicy,
xpv1.ReconciliationPolicy, xpv1.Reference, xpv1.TypedReference,
metav1.LabelSelector, xpv1.UpdatePolicy, xpv1.CompositeDeletePolicy,
metav1.Time, int64) and the local interface types Object, Managed and
ProviderConfigUsage; `ptr`, `slice` and `variadic` are the Go `*T`, `[]T`
and `...T` type formers. -/
inductive GoType where
  | contextT
  | errorT
  | conditionT
  | conditionTypeT
  | claimReferenceT
  | objectReferenceT
  | localSecretReferenceT
  | secretReferenceT
  | publishConnectionDetailsToT
  | managementPoliciesT
  | deletionPolicyT
  | reconciliationPolicyT
  | referenceT
  | typedReferenceT
  | labelSelectorT
  | updatePolicyT
  | compositeDeletePolicyT
  | timeT
  | int64T
  | objectT
  | managedT
  | providerConfigUsageT
  | ptr (t : GoType)
  | slice (t : GoType)
  | variadic (t : GoType)
deriving DecidableEq, Repr

/-- A Go method signature: name, parameter types, result types. -/
structure GoMethod where
  mname : MethodName
  params : List GoType
  results : List GoType
deriving DecidableEq, Repr

/-- A Go interface declaration: its name, the names of the interfaces it
embeds (in source order), and the methods it declares directly. -/
structure GoInterface where
  iname : IfaceName
  embeds : List IfaceName
  declared : List GoMethod
deriving DecidableEq, Repr

-- interfaces.go:33-36
def Conditioned : GoInterface :=
  ⟨IfaceName.conditioned, [],
    [⟨MethodName.setConditions, [GoType.variadic GoType.conditionT], []⟩,
     ⟨MethodName.getCondition, [GoType.conditionTypeT], [GoType.conditionT]⟩]⟩

-- interfaces.go:39-42
def ClaimReferencer : GoInterface :=
  ⟨IfaceName.claimReferencer, [],
    [⟨MethodName.setClaimReference, [GoType.ptr GoType.claimReferenceT], []⟩,
     ⟨MethodName.getClaimReference, [], [GoType.ptr GoType.claimReferenceT]⟩]⟩

-- interfaces.go:45-48
def ManagedResourceReferencer : GoInterface :=
  ⟨IfaceName.managedResourceReferencer, [],
    [⟨MethodName.setResourceReference, [GoType.ptr GoType.objectReferenceT], []⟩,
     ⟨MethodName.getResourceReference, [], [GoType.ptr GoType.objectReferenceT]⟩]⟩

-- interfaces.go:52-55
def LocalConnectionSecretWriterTo : GoInterface :=
  ⟨IfaceName.localConnectionSecretWriterTo, [],
    [⟨MethodName.setWriteConnectionSecretToReference,
        [GoType.ptr GoType.localSecretReferenceT], []⟩,
     ⟨MethodName.getWriteConnectionSecretToReference,
        [], [GoType.ptr GoType.localSecretReferenceT]⟩]⟩

-- interfaces.go:59-62
def ConnectionSecretWriterTo : GoInterface :=
  ⟨IfaceName.connectionSecretWriterTo, [],
    [⟨MethodName.setWriteConnectionSecretToReference,
        [GoType.ptr GoType.secretReferenceT], []⟩,
     ⟨MethodName.getWriteConnectionSecretToReference,
        [], [GoType.ptr GoType.secretReferenceT]⟩]⟩

-- interfaces.go:66-69
def ConnectionDetailsPublisherTo : GoInterface :=
  ⟨IfaceName.connectionDetailsPublisherTo, [],
    [⟨MethodName.setPublishConnectionDetailsTo,
        [GoType.ptr GoType.publishConnectionDetailsToT], []⟩,
     ⟨MethodName.getPublishConnectionDetailsTo,
        [], [GoType.ptr GoType.publishConnectionDetailsToT]⟩]⟩

-- interfaces.go:72-75
def Manageable : GoInterface :=
  ⟨IfaceName.manageable, [],
    [⟨MethodName.setManagementPolicies, [GoType.managementPoliciesT], []⟩,
     ⟨MethodName.getManagementPolicies, [], [GoType.managementPoliciesT]⟩]⟩

-- interfaces.go:78-81
def Orphanable : GoInterface :=
  ⟨IfaceName.orphanable, [],
    [⟨MethodName.setDeletionPolicy, [GoType.deletionPolicyT], []⟩,
     ⟨MethodName.getDeletionPolicy, [], [GoType.deletionPolicyT]⟩]⟩

-- interfaces.go:83-86
def CustomReconciliation : GoInterface :=
  ⟨IfaceName.customReconciliation, [],
    [⟨MethodName.setReconciliationPolicy, [GoType.ptr GoType.reconciliationPolicyT], []⟩,
     ⟨MethodName.getReconciliationPolicy, [], [GoType.ptr GoType.reconciliationPolicyT]⟩]⟩

-- interfaces.go:89-92
def ProviderConfigReferencer : GoInterface :=
  ⟨IfaceName.providerConfigReferencer, [],
    [⟨MethodName.getProviderConfigReference, [], [GoType.ptr GoType.referenceT]⟩,
     ⟨MethodName.setProviderConfigReference, [GoType.ptr GoType.referenceT], []⟩]⟩

-- interfaces.go:96-99
def RequiredProviderConfigReferencer : GoInterface :=
  ⟨IfaceName.requiredProviderConfigReferencer, [],
    [⟨MethodName.getProviderConfigReference, [], [GoType.referenceT]⟩,
     ⟨MethodName.setProviderConfigReference, [GoType.referenceT], []⟩]⟩

-- interfaces.go:102-105
def RequiredTypedResourceReferencer : GoInterface :=
  ⟨IfaceName.requiredTypedResourceReferencer, [],
    [⟨MethodName.setResourceReference, [GoType.typedReferenceT], []⟩,
     ⟨MethodName.getResourceReference, [], [GoType.typedReferenceT]⟩]⟩

-- interfaces.go:108-111
def Finalizer : GoInterface :=
  ⟨IfaceName.finalizer, [],
    [⟨MethodName.addFinalizer, [GoType.contextT, GoType.objectT], [GoType.errorT]⟩,
     ⟨MethodName.removeFinalizer, [GoType.contextT, GoType.objectT], [GoType.errorT]⟩]⟩

-- interfaces.go:114-117
def CompositionSelector : GoInterface :=
  ⟨IfaceName.compositionSelector, [],
    [⟨MethodName.setCompositionSelector, [GoType.ptr GoType.labelSelectorT], []⟩,
     ⟨MethodName.getCompositionSelector, [], [GoType.ptr GoType.labelSelectorT]⟩]⟩

-- interfaces.go:120-123
def CompositionReferencer : GoInterface :=
  ⟨IfaceName.compositionReferencer, [],
    [⟨MethodName.setCompositionReference, [GoType.ptr GoType.objectReferenceT], []⟩,
     ⟨MethodName.getCompositionReference, [], [GoType.ptr GoType.objectReferenceT]⟩]⟩

-- interfaces.go:127-130
def CompositionRevisionReferencer : GoInterface :=
  ⟨IfaceName.compositionRevisionReferencer, [],
    [⟨MethodName.setCompositionRevisionReference, [GoType.ptr GoType.objectReferenceT], []⟩,
     ⟨MethodName.getCompositionRevisionReference, [], [GoType.ptr GoType.objectReferenceT]⟩]⟩

-- interfaces.go:134-137
def CompositionRevisionSelector : GoInterface :=
  ⟨IfaceName.compositionRevisionSelector, [],
    [⟨MethodName.setCompositionRevisionSelector, [GoType.ptr GoType.labelSelectorT], []⟩,
     ⟨MethodName.getCompositionRevisionSelector, [], [GoType.ptr GoType.labelSelectorT]⟩]⟩

-- interfaces.go:141-144
def CompositionUpdater : GoInterface :=
  ⟨IfaceName.compositionUpdater, [],
    [⟨MethodName.setCompositionUpdatePolicy, [GoType.ptr GoType.updatePolicyT], []⟩,
     ⟨MethodName.getCompositionUpdatePolicy, [], [GoType.ptr GoType.updatePolicyT]⟩]⟩

-- interfaces.go:148-151
def CompositeResourceDeleter : GoInterface :=
  ⟨IfaceName.compositeResourceDeleter, [],
    [⟨MethodName.setCompositeDeletePolicy, [GoType.ptr GoType.compositeDeletePolicyT], []⟩,
     ⟨MethodName.getCompositeDeletePolicy, [], [GoType.ptr GoType.compositeDeletePolicyT]⟩]⟩

-- interfaces.go:154-157
def ComposedResourcesReferencer : GoInterface :=
  ⟨IfaceName.composedResourcesReferencer, [],
    [⟨MethodName.setResourceReferences, [GoType.slice GoType.objectReferenceT], []⟩,
     ⟨MethodName.getResourceReferences, [], [GoType.slice GoType.objectReferenceT]⟩]⟩

-- interfaces.go:160-163
def CompositeResourceReferencer : GoInterface :=
  ⟨IfaceName.compositeResourceReferencer, [],
    [⟨MethodName.setResourceReference, [GoType.ptr GoType.objectReferenceT], []⟩,
     ⟨MethodName.getResourceReference, [], [GoType.ptr GoType.objectReferenceT]⟩]⟩

-- interfaces.go:166-169
def EnvironmentConfigReferencer : GoInterface :=
  ⟨IfaceName.environmentConfigReferencer, [],
    [⟨MethodName.setEnvironmentConfigReferences, [GoType.slice GoType.objectReferenceT], []⟩,
     ⟨MethodName.getEnvironmentConfigReferences, [], [GoType.slice GoType.objectReferenceT]⟩]⟩

-- interfaces.go:172-175
def UserCounter : GoInterface :=
  ⟨IfaceName.userCounter, [],
    [⟨MethodName.setUsers, [GoType.int64T], []⟩,
     ⟨MethodName.getUsers, [], [GoType.int64T]⟩]⟩

-- interfaces.go:179-182
def ConnectionDetailsPublishedTimer : GoInterface :=
  ⟨IfaceName.connectionDetailsPublishedTimer, [],
    [⟨MethodName.setConnectionDetailsLastPublishedTime, [GoType.ptr GoType.timeT], []⟩,
     ⟨MethodName.getConnectionDetailsLastPublishedTime, [], [GoType.ptr GoType.timeT]⟩]⟩

-- interfaces.go:185-188
def ReconciliationObserver : GoInterface :=
  ⟨IfaceName.reconciliationObserver, [],
    [⟨MethodName.setObservedGeneration, [GoType.int64T], []⟩,
     ⟨MethodName.getObservedGeneration, [], [GoType.int64T]⟩]⟩

-- interfaces.go:191-194.  The embedded metav1.Object and runtime.Object are
-- external to this repository; their methods are not declared in this file.
def Object : GoInterface :=
  ⟨IfaceName.objectIface, [IfaceName.metav1Object, IfaceName.runtimeObject], []⟩

-- interfaces.go:198-209
def Managed : GoInterface :=
  ⟨IfaceName.managedIface,
   [IfaceName.objectIface,
    IfaceName.providerConfigReferencer,
    IfaceName.connectionSecretWriterTo,
    IfaceName.connectionDetailsPublisherTo,
    IfaceName.manageable,
    IfaceName.orphanable,
    IfaceName.customReconciliation,
    IfaceName.conditioned], []⟩

-- interfaces.go:212-217
def ManagedList : GoInterface :=
  ⟨IfaceName.managedList, [IfaceName.clientObjectList],
    [⟨MethodName.getItems, [], [GoType.slice GoType.managedT]⟩]⟩

-- interfaces.go:220-225
def ProviderConfig : GoInterface :=
  ⟨IfaceName.providerConfig,
   [IfaceName.objectIface, IfaceName.userCounter, IfaceName.conditioned], []⟩

-- interfaces.go:228-233
def ProviderConfigUsage : GoInterface :=
  ⟨IfaceName.providerConfigUsage,
   [IfaceName.objectIface,
    IfaceName.requiredProviderConfigReferencer,
    IfaceName.requiredTypedResourceReferencer], []⟩

-- interfaces.go:236-241
def ProviderConfigUsageList : GoInterface :=
  ⟨IfaceName.providerConfigUsageList, [IfaceName.clientObjectList],
    [⟨MethodName.getItems, [], [GoType.slice GoType.providerConfigUsageT]⟩]⟩

-- interfaces.go:244-261
def Composite : GoInterface :=
  ⟨IfaceName.composite,
   [IfaceName.objectIface,
    IfaceName.compositionSelector,
    IfaceName.compositionReferencer,
    IfaceName.compositionUpdater,
    IfaceName.compositionRevisionReferencer,
    IfaceName.compositionRevisionSelector,
    IfaceName.composedResourcesReferencer,
    IfaceName.environmentConfigReferencer,
    IfaceName.claimReferencer,
    IfaceName.connectionSecretWriterTo,
    IfaceName.connectionDetailsPublisherTo,
    IfaceName.conditioned,
    IfaceName.connectionDetailsPublishedTimer,
    IfaceName.reconciliationObserver], []⟩

-- interfaces.go:264-271
def Composed : GoInterface :=
  ⟨IfaceName.composed,
   [IfaceName.objectIface,
    IfaceName.conditioned,
    IfaceName.connectionSecretWriterTo,
    IfaceName.connectionDetailsPublisherTo,
    IfaceName.reconciliationObserver], []⟩

-- interfaces.go:274-290
def CompositeClaim : GoInterface :=
  ⟨IfaceName.compositeClaim,
   [IfaceName.objectIface,
    IfaceName.compositionSelector,
    IfaceName.compositionReferencer,
    IfaceName.compositionUpdater,
    IfaceName.compositionRevisionReferencer,
    IfaceName.compositionRevisionSelector,
    IfaceName.compositeResourceDeleter,
    IfaceName.compositeResourceReferencer,
    IfaceName.localConnectionSecretWriterTo,
    IfaceName.connectionDetailsPublisherTo,
    IfaceName.conditioned,
    IfaceName.connectionDetailsPublishedTimer,
    IfaceName.reconciliationObserver], []⟩

/-- All interfaces declared in src/pkg/resource/interfaces.go, in source
order. -/
def declaredInterfaces : List GoInterface :=
  [Conditioned, ClaimReferencer, ManagedResourceReferencer,
   LocalConnectionSecretWriterTo, ConnectionSecretWriterTo,
   ConnectionDetailsPublisherTo, Manageable, Orphanable, CustomReconciliation,
   ProviderConfigReferencer, RequiredProviderConfigReferencer,
   RequiredTypedResourceReferencer, Finalizer, CompositionSelector,
   CompositionReferencer, CompositionRevisionReferencer,
   CompositionRevisionSelector, CompositionUpdater, CompositeResourceDeleter,
   ComposedResourcesReferencer, CompositeResourceReferencer,
   EnvironmentConfigReferencer, UserCounter, ConnectionDetailsPublishedTimer,
   ReconciliationObserver, Object, Managed, ManagedList, ProviderConfig,
   ProviderConfigUsage, ProviderConfigUsageList, Composite, Composed,
   CompositeClaim]

/-- The methods an interface name contributes when embedded: the directly
declared methods of the interface of that name.  Interfaces external to the
repository (metav1.Object, runtime.Object, client.ObjectList) contribute no
methods declared in this file. -/
def contributedMethods (n : IfaceName) : List GoMethod :=
  (((declaredInterfaces.find? (fun i => i.iname = n)).map
      (fun i => i.declared)).getD [])

/-- The method set of an interface as Go computes it: the methods of each
embedded interface followed by the directly declared methods.  Every entity
interface of the source embeds only capability interfaces declared in the
same file (plus `Object`, whose own method set comes from external
interfaces), so one level of resolution is exact. -/
def methodSet (i : GoInterface) : List GoMethod :=
  ((i.embeds.map (fun n =>
      contributedMethods n ++
        (((declaredInterfaces.find? (fun j => j.iname = n)).map
            (fun j => j.embeds.map contributedMethods)).getD []).flatten)).flatten)
    ++ i.declared

/-- The result types of the method named `n` in interface `i`, when declared. -/
def methodResults (i : GoInterface) (n : MethodName) : Option (List GoType) :=
  ((methodSet i).find? (fun m => m.mname = n)).map (fun m => m.results)

/-- The parameter types of the method named `n` in interface `i`, when
declared. -/
def methodParams (i : GoInterface) (n : MethodName) : Option (List GoType) :=
  ((methodSet i).find? (fun m => m.mname = n)).map (fun m => m.params)

/-- True when a Go type can carry a reference to another API object (the
reference value types of the source's referencer capabilities:
corev1.ObjectReference, claim.Reference, xpv1.Reference and
xpv1.TypedReference), directly or under `*`, `[]` or `...`.  Secret
references (xpv1.LocalSecretReference, xpv1.SecretReference,
xpv1.PublishConnectionDetailsTo) name connection-secret destinations, not
API objects. -/
def carriesObjectRef : GoType → Bool
  | GoType.ptr t => carriesObjectRef t
  | GoType.slice t => carriesObjectRef t
  | GoType.variadic t => carriesObjectRef t
  | GoType.objectReferenceT => true
  | GoType.claimReferenceT => true
  | GoType.referenceT => true
  | GoType.typedReferenceT => true
  | _ => false

/-- True when the Go type is a pointer type (Go's nilable reference form). -/
def isPtr : GoType → Bool
  | GoType.ptr _ => true
  | _ => false

/-
Value-level model of references.  The xpv1 reference value types live in
apis/common/v1, which is not under src/; the shapes below follow the design
document's data model.
-/

/-- Modelled from the spec: xpv1.Reference, the spec's
`Reference — {kind, namespace?, name}` pointing at another Object.  The
apis/common/v1 package is not under src/. -/
structure XpReference where
  kind : String
  nspace : Option String
  name : String
deriving DecidableEq, Repr

/-- Modelled from the spec: xpv1.TypedReference, the typed reference a
ProviderConfigUsage holds to exactly one Managed resource (the spec's
`resourceRef: TypedReference(required)`).  The apis/common/v1 package is not
under src/. -/
structure XpTypedReference where
  apiVersion : String
  kind : String
  name : String
deriving DecidableEq, Repr

/-- Modelled from the spec: xpv1.LocalSecretReference, the destination type
of LocalConnectionSecretWriterTo (interfaces.go:52-55), which "may write a
connection secret to its own namespace": it carries only a secret name and
no namespace.  The apis/common/v1 package is not under src/. -/
structure LocalSecretReference where
  name : String
deriving DecidableEq, Repr

/-- Modelled from the spec: xpv1.SecretReference, the destination type of
ConnectionSecretWriterTo (interfaces.go:59-62), which "may write a
connection secret to an arbitrary namespace": it carries a namespace and a
secret name. -/
structure SecretReference where
  nspace : String
  name : String
deriving DecidableEq, Repr

/-- The (namespace, name) a local connection-secret destination resolves to
for an owning object living in namespace `ownerNs`: the owner's own
namespace, always. -/
def resolveLocalSecretTarget (ownerNs : String) (r : LocalSecretReference) :
    String × String :=
  (ownerNs, r.name)

/-- The (namespace, name) a non-local connection-secret destination resolves
to: the namespace carried by the reference itself, regardless of the owning
object's namespace. -/
def resolveSecretTarget (_ownerNs : String) (r : SecretReference) :
    String × String :=
  (r.nspace, r.name)

/-
Value-level model of a required-reference implementer versus an optional-
reference implementer.  A Go struct satisfying a Required* referencer stores
the plain value (its getter returns `xpv1.Reference`), while one satisfying
the optional variant stores a pointer (getter returns `*xpv1.Reference`,
which may be nil).  We model the stored field, a Set call as replacing it,
and a Get call as observing it; `observeRequired` embeds the required
observation into the optional one for comparison.
-/

/-- The stored state of a required-reference implementer after a sequence of
Set calls: each call replaces the stored plain value. -/
def runSets {α : Type} (init : α) : List α → α
  | [] => init
  | r :: rs => runSets r rs

/-- A Get on a required-reference implementer, viewed through the optional
(nilable) observation type: the plain stored value, hence always present. -/
def observeRequired {α : Type} (s : α) : Option α :=
  some s

/-- The stored state of an optional-reference implementer after a sequence
of Set calls: the pointer field, which any call may set to nil (`none`). -/
def runOptSets {α : Type} (init : Option α) : List (Option α) → Option α
  | [] => init
  | r :: rs => runOptSets r rs

/-- A Get on an optional-reference implementer: the stored pointer as-is. -/
def observeOptional {α : Type} (s : Option α) : Option α :=
  s

/-
Model of the provider-config usage ledger.  The ledger operations
RecordUsage, RemoveUsage and RefreshUserCount (spec sections 4.3 and 8) are
not under src/; only the capabilities they rely on are (UserCounter,
interfaces.go:172-175, and ProviderConfigUsage, interfaces.go:228-233).
-/

/-- Modelled from the spec: a live ProviderConfigUsage record, the join
record `{providerConfigRef: Reference(required), resourceRef:
TypedReference(required)}`.  References are identified here by the name they
carry. -/
structure UsageRecord where
  providerConfigRef : String
  resourceRef : String
deriving DecidableEq, Repr

/-- Modelled from the spec: the state the usage ledger acts on — the set of
live Usage records and each ProviderConfig's persisted `users: int64`
counter (an association list; a config without an entry has counter 0). -/
structure LedgerState where
  usages : List UsageRecord
  usersCounters : List (String × Int)
deriving DecidableEq, Repr

/-- The `users` counter a ProviderConfig's UserCounter.GetUsers would
return. -/
def getUsers (s : LedgerState) (pc : String) : Int :=
  (((s.usersCounters.find? (fun p => p.1 = pc)).map (fun p => p.2)).getD 0)

/-- Persist a new `users` counter on a ProviderConfig
(UserCounter.SetUsers). -/
def setUsers (s : LedgerState) (pc : String) (n : Int) : LedgerState :=
  ⟨s.usages, (pc, n) :: s.usersCounters.filter (fun p => p.1 ≠ pc)⟩

/-- The number of live Usage records whose required provider-config
reference names `pc`. -/
def usageCount (s : LedgerState) (pc : String) : Nat :=
  (s.usages.filter (fun u => u.providerConfigRef = pc)).length

/-- Modelled from the spec: `RecordUsage(managed)` "creates or confirms a
Usage record naming managed's ProviderConfig and the Managed resource
itself" — each Managed resource gets its own single record.  It does not
touch any `users` counter. -/
def recordUsage (s : LedgerState) (m : String) (pc : String) : LedgerState :=
  ⟨⟨pc, m⟩ :: s.usages.filter (fun u => u.resourceRef ≠ m), s.usersCounters⟩

/-- Modelled from the spec: `RemoveUsage(managed)` "deletes the Usage record
for managed, if present; idempotent".  It does not touch any `users`
counter. -/
def removeUsage (s : LedgerState) (m : String) : LedgerState :=
  ⟨s.usages.filter (fun u => u.resourceRef ≠ m), s.usersCounters⟩

/-- Modelled from the spec: `RefreshUserCount(providerConfig)` "recomputes
`users` by counting live Usage records and persists it only if changed". -/
def refreshUserCount (s : LedgerState) (pc : String) : LedgerState :=
  if getUsers s pc = (usageCount s pc : Int) then s
  else setUsers s pc (usageCount s pc)

/-- One ledger operation. -/
inductive LedgerOp where
  | record (m pc : String)
  | remove (m : String)
  | refresh (pc : String)
deriving DecidableEq, Repr

/-- Apply one ledger operation. -/
def applyOp (s : LedgerState) : LedgerOp → LedgerState
  | LedgerOp.record m pc => recordUsage s m pc
  | LedgerOp.remove m => removeUsage s m
  | LedgerOp.refresh pc => refreshUserCount s pc

/-- Run a sequence of ledger operations. -/
def runOps (s : LedgerState) : List LedgerOp → LedgerState
  | [] => s
  | op :: ops => runOps (applyOp s op) ops

/-- The empty initial ledger state: no Usage records, no counters. -/
def initLedger : LedgerState :=
  ⟨[], []⟩

/-- The ledger invariant: a ProviderConfig's persisted `users` counter
equals the number of live Usage records referencing it. -/
def Consistent (s : LedgerState) (pc : String) : Prop :=
  getUsers s pc = (usageCount s pc : Int)

instance (s : LedgerState) (pc : String) : Decidable (Consistent s pc) := by
  unfold Consistent
  infer_instance

/-- The entity interfaces of src/pkg/resource/interfaces.go (the interfaces
describing persisted API objects, as opposed to single-capability contracts
and list types). -/
def entityInterfaces : List GoInterface :=
  [Managed, ProviderConfig, ProviderConfigUsage, Composite, Composed,
   CompositeClaim]

/-- The five composition-selection capabilities shared by Composite and
CompositeClaim. -/
def compositionSelectionCapabilities : List GoInterface :=
  [CompositionSelector, CompositionReferencer, CompositionUpdater,
   CompositionRevisionReferencer, CompositionRevisionSelector]

/-- The capability set the spec's data model enumerates for Composite.  This
definition follows the spec's words (not the source), for comparison with
the source's `Composite`: a Claim reference, composition selection by
selector or direct reference plus a pinned revision reference, a revision
selector and an update policy, Composed resource references,
EnvironmentConfig references, a connection-secret destination, the
last-published-connection-details timestamp, an observed-generation counter,
and conditions. -/
def compositeSpecListedCapabilities : List IfaceName :=
  [IfaceName.claimReferencer,
   IfaceName.compositionSelector,
   IfaceName.compositionReferencer,
   IfaceName.compositionRevisionReferencer,
   IfaceName.compositionRevisionSelector,
   IfaceName.compositionUpdater,
   IfaceName.composedResourcesReferencer,
   IfaceName.environmentConfigReferencer,
   IfaceName.connectionSecretWriterTo,
   IfaceName.connectionDetailsPublishedTimer,
   IfaceName.reconciliationObserver,
   IfaceName.conditioned]

theorem usages_setUsers (s : LedgerState) (pc : String) (n : Int) :
    (setUsers s pc n).usages = s.usages :=
  rfl

theorem getUsers_setUsers (s : LedgerState) (pc : String) (n : Int) :
    getUsers (setUsers s pc n) pc = n := by
  unfold getUsers setUsers
  rw [List.find?_cons_of_pos]
  · rfl
  · simp

theorem refresh_restores (s : LedgerState) (pc : String) :
    Consistent (refreshUserCount s pc) pc := by
  unfold Consistent refreshUserCount
  split
  · assumption
  · rw [getUsers_setUsers]
    rfl

/-- C1 (counterexample): the claim's universally quantified form — that the
`users` counter equals the live Usage count in every reachable ledger
state — fails at a concrete input: starting from the empty ledger, a single
`RecordUsage("m1", "pc1")` creates the Usage record but, per the spec's own
operation contract, does not touch the counter, so `users("pc1") = 0` while
one live Usage record references "pc1". -/
theorem C1_counterexample :
    ¬ Consistent (runOps initLedger [LedgerOp.record "m1" "pc1"]) "pc1" := by
  decide

/-- C1 (amended): the ledger restores rather than maintains the equality
continuously — `RefreshUserCount(pc)` always re-establishes
`users(pc) = |{Usage : Usage.providerConfigRef = pc}|` by recomputing the
count from the set of live Usage records, while `RecordUsage` and
`RemoveUsage` never increment or decrement any `users` counter (and
`RefreshUserCount` never changes the Usage record set). -/
theorem C1_ledger_recomputes (s : LedgerState) (m pc q : String) :
    Consistent (refreshUserCount s pc) pc ∧
    getUsers (recordUsage s m pc) q = getUsers s q ∧
    getUsers (removeUsage s m) q = getUsers s q ∧
    (refreshUserCount s pc).usages = s.usages := by
  refine ⟨refresh_restores s pc, rfl, rfl, ?_⟩
  unfold refreshUserCount
  split
  · rfl
  · rfl

/-- C2 (counterexample): Managed's provider-config referencer capability is
the optional one, not the required one — its getter returns the nilable
`*xpv1.Reference` (not the plain `xpv1.Reference`), Managed does not embed
RequiredProviderConfigReferencer, and a concrete pointer-typed implementer
state observes nil after `SetProviderConfigReference(nil)`. -/
theorem C2_counterexample :
    ¬ (methodResults Managed MethodName.getProviderConfigReference
        = some [GoType.referenceT]) ∧
    methodResults Managed MethodName.getProviderConfigReference
      = some [GoType.ptr GoType.referenceT] ∧
    Managed.embeds.contains IfaceName.requiredProviderConfigReferencer
      = false ∧
    observeOptional (runOptSets
      (some (⟨"ProviderConfig", none, "pc1"⟩ : XpReference))
      [(none : Option XpReference)]) = none := by
  refine ⟨by decide, by decide, by decide, rfl⟩

/-- C2 (amended): every Managed resource holds its ProviderConfig reference
through the optional ProviderConfigReferencer capability — the getter
returns and the setter accepts a nilable `*xpv1.Reference`, so the reference
may be unset; among all interfaces declared in the file, only
ProviderConfigUsage embeds the required (non-nil) variant. -/
theorem C2_managed_pcref_optional :
    Managed.embeds = [IfaceName.objectIface,
      IfaceName.providerConfigReferencer,
      IfaceName.connectionSecretWriterTo,
      IfaceName.connectionDetailsPublisherTo,
      IfaceName.manageable,
      IfaceName.orphanable,
      IfaceName.customReconciliation,
      IfaceName.conditioned] ∧
    methodResults Managed MethodName.getProviderConfigReference
      = some [GoType.ptr GoType.referenceT] ∧
    methodParams Managed MethodName.setProviderConfigReference
      = some [GoType.ptr GoType.referenceT] ∧
    (declaredInterfaces.all (fun i =>
      !(i.embeds.contains IfaceName.requiredProviderConfigReferencer)
        || decide (i.iname = IfaceName.providerConfigUsage))) = true := by
  decide

/-- C3: both references of a ProviderConfigUsage are required — it embeds
exactly the two required referencer capabilities on top of Object, its
getters return the plain (non-pointer) `xpv1.Reference` and
`xpv1.TypedReference`, its setters take the plain values, and no method in
its method set returns a pointer, so neither reference can be observed
absent. -/
theorem C3_usage_references_required :
    ProviderConfigUsage.embeds = [IfaceName.objectIface,
      IfaceName.requiredProviderConfigReferencer,
      IfaceName.requiredTypedResourceReferencer] ∧
    methodResults ProviderConfigUsage MethodName.getProviderConfigReference
      = some [GoType.referenceT] ∧
    methodResults ProviderConfigUsage MethodName.getResourceReference
      = some [GoType.typedReferenceT] ∧
    methodParams ProviderConfigUsage MethodName.setProviderConfigReference
      = some [GoType.referenceT] ∧
    methodParams ProviderConfigUsage MethodName.setResourceReference
      = some [GoType.typedReferenceT] ∧
    ((methodSet ProviderConfigUsage).all (fun m =>
      m.results.all (fun t => !(isPtr t)))) = true := by
  decide

/-- C4: required versus optional references are a type-level distinction —
the Required* capabilities accept and return plain values while the optional
variants use nilable pointers, and a required-reference implementer's stored
reference is never observed unset under any sequence of Set calls, whereas a
concrete optional implementer reaches the nil observation. -/
theorem C4_required_vs_optional (init : XpReference)
    (sets : List XpReference) :
    methodResults RequiredProviderConfigReferencer
      MethodName.getProviderConfigReference = some [GoType.referenceT] ∧
    methodParams RequiredProviderConfigReferencer
      MethodName.setProviderConfigReference = some [GoType.referenceT] ∧
    methodResults RequiredTypedResourceReferencer
      MethodName.getResourceReference = some [GoType.typedReferenceT] ∧
    methodParams RequiredTypedResourceReferencer
      MethodName.setResourceReference = some [GoType.typedReferenceT] ∧
    methodResults ProviderConfigReferencer
      MethodName.getProviderConfigReference
      = some [GoType.ptr GoType.referenceT] ∧
    methodResults ManagedResourceReferencer
      MethodName.getResourceReference
      = some [GoType.ptr GoType.objectReferenceT] ∧
    observeRequired (runSets init sets) ≠ none ∧
    observeOptional (runOptSets (some init) [(none : Option XpReference)])
      = none := by
  refine ⟨by decide, by decide, by decide, by decide, by decide, by decide,
    ?_, rfl⟩
  simp [observeRequired]

/-- C5: within the capability contracts declared in interfaces.go, no method
of the Composed interface yields (or accepts) a value that can reference
another API object — its method set only handles conditions,
connection-secret destinations and the observed generation — while the
parent side of the relationship is Composite's ComposedResourcesReferencer,
whose getter returns the `[]corev1.ObjectReference` list.  The relationship
is recorded only on the Composite. -/
theorem C5_composed_no_backreference :
    ((methodSet Composed).all (fun m =>
      (m.results.all (fun t => !(carriesObjectRef t))) &&
      (m.params.all (fun t => !(carriesObjectRef t))))) = true ∧
    Composed.embeds = [IfaceName.objectIface,
      IfaceName.conditioned,
      IfaceName.connectionSecretWriterTo,
      IfaceName.connectionDetailsPublisherTo,
      IfaceName.reconciliationObserver] ∧
    Composite.embeds.contains IfaceName.composedResourcesReferencer = true ∧
    methodResults Composite MethodName.getResourceReferences
      = some [GoType.slice GoType.objectReferenceT] := by
  decide

/-- C6 (counterexample): Composite's capability set is not exactly the one
the claim enumerates — Composite also embeds ConnectionDetailsPublisherTo,
which is absent from the enumerated set, so the membership check of every
embedded capability against the enumerated set (allowing the base Object)
fails. -/
theorem C6_counterexample :
    (Composite.embeds.all (fun n =>
      compositeSpecListedCapabilities.contains n
        || decide (n = IfaceName.objectIface))) = false ∧
    Composite.embeds.contains IfaceName.connectionDetailsPublisherTo
      = true ∧
    compositeSpecListedCapabilities.contains
      IfaceName.connectionDetailsPublisherTo = false := by
  decide

/-- C6 (amended): Composite provides every capability the claim enumerates —
a nilable Claim reference, composition selector and direct reference, pinned
revision reference, revision selector, update policy, Composed resource
reference list, EnvironmentConfig reference list, connection-secret
destination, last-published timestamp, observed generation, and
conditions — and exactly one capability more: ConnectionDetailsPublisherTo,
the connection-details secret-store destination (besides the base Object
identity). -/
theorem C6_composite_capabilities :
    Composite.embeds = [IfaceName.objectIface,
      IfaceName.compositionSelector,
      IfaceName.compositionReferencer,
      IfaceName.compositionUpdater,
      IfaceName.compositionRevisionReferencer,
      IfaceName.compositionRevisionSelector,
      IfaceName.composedResourcesReferencer,
      IfaceName.environmentConfigReferencer,
      IfaceName.claimReferencer,
      IfaceName.connectionSecretWriterTo,
      IfaceName.connectionDetailsPublisherTo,
      IfaceName.conditioned,
      IfaceName.connectionDetailsPublishedTimer,
      IfaceName.reconciliationObserver] ∧
    (compositeSpecListedCapabilities.all (fun n =>
      Composite.embeds.contains n)) = true ∧
    (Composite.embeds.all (fun n =>
      compositeSpecListedCapabilities.contains n
        || decide (n = IfaceName.objectIface)
        || decide (n = IfaceName.connectionDetailsPublisherTo))) = true ∧
    methodResults Composite MethodName.getClaimReference
      = some [GoType.ptr GoType.claimReferenceT] ∧
    methodResults Composite MethodName.getCompositionUpdatePolicy
      = some [GoType.ptr GoType.updatePolicyT] ∧
    methodResults Composite MethodName.getResourceReferences
      = some [GoType.slice GoType.objectReferenceT] ∧
    methodResults Composite MethodName.getEnvironmentConfigReferences
      = some [GoType.slice GoType.objectReferenceT] ∧
    methodResults Composite MethodName.getWriteConnectionSecretToReference
      = some [GoType.ptr GoType.secretReferenceT] ∧
    methodResults Composite MethodName.getConnectionDetailsLastPublishedTime
      = some [GoType.ptr GoType.timeT] ∧
    methodResults Composite MethodName.getObservedGeneration
      = some [GoType.int64T] := by
  decide

/-- C7: CompositeClaim mirrors Composite's composition selection — each of
the five composition-selection capabilities is embedded by both interfaces
and contributes the same method signatures to both method sets — and the
Claim additionally carries a CompositeDeletePolicy and a single nilable
Composite resource reference, while (unlike Composite) it does not embed the
ComposedResourcesReferencer used to materialize resources. -/
theorem C7_claim_mirrors_composite :
    (compositionSelectionCapabilities.all (fun c =>
      Composite.embeds.contains c.iname &&
      CompositeClaim.embeds.contains c.iname &&
      (c.declared.all (fun m =>
        (methodSet Composite).contains m &&
        (methodSet CompositeClaim).contains m)))) = true ∧
    CompositeClaim.embeds.contains IfaceName.compositeResourceDeleter
      = true ∧
    methodResults CompositeClaim MethodName.getCompositeDeletePolicy
      = some [GoType.ptr GoType.compositeDeletePolicyT] ∧
    CompositeClaim.embeds.contains IfaceName.compositeResourceReferencer
      = true ∧
    methodResults CompositeClaim MethodName.getResourceReference
      = some [GoType.ptr GoType.objectReferenceT] ∧
    CompositeClaim.embeds.contains IfaceName.composedResourcesReferencer
      = false := by
  decide

/-- C8: a Claim's connection-secret destination is local-namespace only —
CompositeClaim embeds LocalConnectionSecretWriterTo (and not
ConnectionSecretWriterTo), whose reference type carries no namespace, so the
destination always resolves to the owning Claim's own namespace; Composite
embeds ConnectionSecretWriterTo, whose reference carries its own namespace
and can therefore target a namespace other than the owner's. -/
theorem C8_claim_secret_local (ownerNs : String) (r : LocalSecretReference) :
    CompositeClaim.embeds.contains IfaceName.localConnectionSecretWriterTo
      = true ∧
    CompositeClaim.embeds.contains IfaceName.connectionSecretWriterTo
      = false ∧
    Composite.embeds.contains IfaceName.connectionSecretWriterTo = true ∧
    methodResults CompositeClaim
      MethodName.getWriteConnectionSecretToReference
      = some [GoType.ptr GoType.localSecretReferenceT] ∧
    methodResults Composite MethodName.getWriteConnectionSecretToReference
      = some [GoType.ptr GoType.secretReferenceT] ∧
    (resolveLocalSecretTarget ownerNs r).1 = ownerNs ∧
    (resolveSecretTarget "ns-a" (⟨"ns-b", "s"⟩ : SecretReference)).1
      ≠ "ns-a" := by
  exact ⟨by decide, by decide, by decide, by decide, by decide, rfl,
    by decide⟩

/-- C9: the Finalizer manager is entity-agnostic — AddFinalizer and
RemoveFinalizer each take a context and a plain Object (Kubernetes object
metadata plus runtime identity) and return only an error, and every entity
interface of the model (Managed, ProviderConfig, ProviderConfigUsage,
Composite, Composed, CompositeClaim) embeds Object, so any of them can be
passed to the same Finalizer. -/
theorem C9_finalizer_universal :
    Finalizer.declared =
      [⟨MethodName.addFinalizer, [GoType.contextT, GoType.objectT],
          [GoType.errorT]⟩,
       ⟨MethodName.removeFinalizer, [GoType.contextT, GoType.objectT],
          [GoType.errorT]⟩] ∧
    (entityInterfaces.all (fun i =>
      i.embeds.contains IfaceName.objectIface)) = true ∧
    Object.embeds = [IfaceName.metav1Object, IfaceName.runtimeObject] := by
  decide

/-- C10: ProviderConfigUsage is the only entity interface without the
Conditioned capability — every other entity interface embeds Conditioned,
while a Usage record's method set (beyond the external Object metadata)
consists solely of the four methods of its two required referencers, so no
Condition can be recorded on a Usage record itself. -/
theorem C10_usage_only_unconditioned :
    (entityInterfaces.all (fun i =>
      (i.embeds.contains IfaceName.conditioned)
        == !(decide (i.iname = IfaceName.providerConfigUsage)))) = true ∧
    ProviderConfigUsage.embeds = [IfaceName.objectIface,
      IfaceName.requiredProviderConfigReferencer,
      IfaceName.requiredTypedResourceReferencer] ∧
    ((methodSet ProviderConfigUsage).all (fun m =>
      decide (m.mname = MethodName.getProviderConfigReference) ||
      decide (m.mname = MethodName.setProviderConfigReference) ||
      decide (m.mname = MethodName.getResourceReference) ||
      decide (m.mname = MethodName.setResourceReference))) = true := by
  decide

end CrossplaneRuntime
